import Mathlib

/-!
Verification of the PIA port-forwarding script (pia-script.py).

The script is a one-shot tool: it inspects the VPN tunnel interface, loads a
JSON credentials file, posts the credentials to the PIA API endpoint, and
classifies the JSON response.  Every failure funnels into handleError, which
prints diagnostics and terminates the process with a fixed exit code.

The embedding below models the ambient effects (OS interface table, file
reading, json.loads, urllib.request.urlopen, bytes.decode) as an explicit
environment record, and Python-level termination as an Except error: either a
handleError exit (printed output plus exit code) or an uncaught Python
exception (type name plus argument).
-/

namespace PIA

/-- JSON scalar values as produced by json.loads for the flat documents the
script handles (credentials files and API responses). -/
inductive JVal where
  | str : String → JVal
  | num : Int → JVal
  | bool : Bool → JVal
  | null : JVal
  deriving DecidableEq

/-- A Python dict as parsed from a flat JSON object: insertion-ordered
key/value pairs with distinct keys kept in list order. -/
abbrev JObj := List (String × JVal)

/-- Python str () of a JSON scalar. -/
def pyStr : JVal → String
  | .str s => s
  | .num n => toString n
  | .bool b => if b then "True" else "False"
  | .null => "None"

/-- First-match association lookup: models Python dict indexing and the
membership test k in d. -/
def alookup {κ α : Type} [DecidableEq κ] (m : List (κ × α)) (k : κ) : Option α :=
  match m with
  | [] => none
  | (k1, v1) :: rest => if k1 = k then some v1 else alookup rest k

/-- Replace one pair by the new binding when its key matches. -/
def replaceKV (k : String) (v : JVal) (kv : String × JVal) : String × JVal :=
  if kv.1 = k then (k, v) else kv

/-- Python dict item assignment d [k] = v: replaces the value of an existing
key in place, otherwise appends the new pair at the end. -/
def dictSet (m : JObj) (k : String) (v : JVal) : JObj :=
  if (m.map Prod.fst).contains k then
    m.map (replaceKV k v)
  else
    m ++ [(k, v)]

/-- Python str.join with the given separator. -/
def joinSep (sep : String) : List String → String
  | [] => ""
  | [s] => s
  | s :: rest => s ++ sep ++ joinSep sep rest

/-- concatStringToList from the source: appends the newline-joined elements to
the message.  The callers pass the elements already rendered in their Python
str () form. -/
def concatStringToList (message : String) (elements : List String) : String :=
  message ++ joinSep "\n" elements

/-- The static exit-code description table from handleError. -/
def exitCodes : List String :=
  ["main (): Success, normal exit",
   "main (): VPN is not connected",
   "getCredentials (): Credentials file cannot be opened",
   "getCredentials (): JSON credentials are malformed",
   "getCredentials (): Credentials file is missing required keys",
   "getIPAddress (): Found more addresses than expected",
   "forwardPort (): Error posting to API endpoint",
   "forwardPort (): API JSON response is malformed",
   "main (): API returned an error response",
   "main (): API returned an unknown response"]

/-- The terminal outcome produced by handleError: everything printed on the
way out (each list entry is one print call, "" a bare print ()) and the
process exit code.  handleError never returns to its caller; every call site
places this value as the final Except error of its function. -/
structure ErrorExit where
  output : List String
  code : Nat
  deriving DecidableEq

/-- handleError from the source: prints the message, the optional exception
text, and the exit status line with the description taken from the static
table, then calls sys.exit with the given code.  All call sites in the script
use codes 1-9, inside the table. -/
def handleError (message : String) (exitCode : Nat) (exception : Option String) : ErrorExit :=
  { output := [message, ""] ++
      (match exception with | some e => [e, ""] | none => []) ++
      ["Exiting with exit status: " ++ toString exitCode ++ ", " ++ exitCodes.getD exitCode ""],
    code := exitCode }

/-- A Python-level terminal event: either a handleError exit or an uncaught
Python exception (type name, argument text). -/
inductive Fail where
  | exited : ErrorExit → Fail
  | exc : String → String → Fail
  deriving DecidableEq

/-- Result of running a piece of the script: a value or a terminal event. -/
abbrev PR (α : Type) := Except Fail α

/-- One netifaces address record; the script only reads the addr field. -/
structure AddrRec where
  addr : String
  deriving DecidableEq

/-- Python repr of an address record dict, as str () renders it inside the
exit-5 diagnostic.  It carries the addr text verbatim. -/
def AddrRec.pyRepr (a : AddrRec) : String :=
  "\x7b\x27addr\x27: \x27" ++ a.addr ++ "\x27\x7d"

/-- netifaces constant for the IPv4 address family. -/
def AF_INET : Nat := 2

/-- The OS interface table as netifaces reports it: interface name to its
address-family table (family number to address records). -/
structure NetState where
  table : List (String × List (Nat × List AddrRec))
  deriving DecidableEq

/-- netifaces never reports an address family with an empty record list: a
family key is present in an interface's table exactly when at least one
address of that family exists. -/
def WellFormed (ns : NetState) : Prop :=
  ∀ interface fams, alookup ns.table interface = some fams →
    ∀ fam l, alookup fams fam = some l → l ≠ []

/-- isConnected from the source: false when the interface is absent from
netifaces.interfaces (), otherwise true exactly when the AF_INET family key
is present in its address table (link state is never consulted). -/
def isConnected (ns : NetState) (interface : String) : Bool :=
  match alookup ns.table interface with
  | none => false
  | some addressFamilies => (alookup addressFamilies AF_INET).isSome

/-- Number of IPv4 addresses expected for the interface (source constant). -/
def ADDRESS_LIMIT : Nat := 1

/-- getIPAddress from the source.  netifaces.ifaddresses raises ValueError on
an unknown interface; the AF_INET dict lookup raises KeyError when the family
is absent; addressList [0] raises IndexError on an empty list.  More than
ADDRESS_LIMIT addresses exits with code 5 listing every record. -/
def getIPAddress (ns : NetState) (interface : String) : PR String :=
  match alookup ns.table interface with
  | none => .error (.exc "ValueError" "You must specify a valid interface name.")
  | some addressFamilies =>
    match alookup addressFamilies AF_INET with
    | none => .error (.exc "KeyError" (toString AF_INET))
    | some addressList =>
      if addressList.length > ADDRESS_LIMIT then
        .error (.exited (handleError (concatStringToList
          ("Receieved " ++ toString addressList.length ++
            " IPV4 address(es) for your VPN interface: \x27" ++ interface ++
            "\x27, expected: " ++ toString ADDRESS_LIMIT ++ "\nAddresses:\n\n")
          (addressList.map AddrRec.pyRepr)) 5 none))
      else
        match addressList with
        | [] => .error (.exc "IndexError" "list index out of range")
        | address :: _ => .ok address.addr

/-- An HTTP response as the script observes it: the raw body and the
content-type charset from the headers (none when the server omits it). -/
structure HTTPResponse where
  body : String
  charset : Option String
  deriving DecidableEq

/-- Default encoding used when the server gives no charset (source constant). -/
def DEFAULT_ENCODING : String := "utf-8"

/-- The ambient effects the script calls into: the OS interface table; file
open-and-read, with the IOError/OSError text on failure; json.loads
restricted to the flat objects the script consumes, with the ValueError text
on failure; urllib.request.urlopen for a URL, body and timeout, with the
URLError/HTTPError text on failure (covering DNS failures, refused
connections, timeouts and non-2xx statuses); and bytes.decode for a body and
a named charset. -/
structure Env where
  net : NetState
  readFile : String → Except String String
  parseJSON : String → Except String JObj
  post : String → String → Nat → Except String HTTPResponse
  decodeBytes : String → String → String

/-- Required-key membership test: a key counts when it is one of user, pass
or client_id, the set intersected with the dict keys in getCredentials. -/
def requiredKeyB (k : String) : Bool :=
  k = "user" || k = "pass" || k = "client_id"

/-- getCredentials from the source.  Read failures exit 2, JSON parse
failures exit 3; then the local VPN IP is inserted under local_ip; an empty
intersection of the keys with the required set exits 4.  The debugPrint calls
at the end evaluate the dict indexing for user, pass and client_id
unconditionally (Python evaluates call arguments eagerly, debug flag or not),
so a missing key raises an uncaught KeyError there. -/
def getCredentials (env : Env) (credentialsPath : String) (interface : String) : PR JObj :=
  match env.readFile credentialsPath with
  | .error fileError =>
    .error (.exited (handleError
      ("Credentials file: \x27" ++ credentialsPath ++ "\x27 does not exist or cannot be opened")
      2 (some fileError)))
  | .ok contents =>
    match env.parseJSON contents with
    | .error jsonError =>
      .error (.exited (handleError
        ("JSON file: \x27" ++ credentialsPath ++
          "\x27 is malformed, refer to the README or the exception message below for the correct format")
        3 (some jsonError)))
    | .ok parsed =>
      match getIPAddress env.net interface with
      | .error f => .error f
      | .ok localIP =>
        let credentials := dictSet parsed "local_ip" (.str localIP)
        if ((credentials.map Prod.fst).any requiredKeyB) = false then
          .error (.exited (handleError
            ("Credentials file: " ++ credentialsPath ++
              " is missing required keys. See the required format in the README")
            4 none))
        else
          match alookup credentials "user" with
          | none => .error (.exc "KeyError" "user")
          | some _ =>
            match alookup credentials "pass" with
            | none => .error (.exc "KeyError" "pass")
            | some _ =>
              match alookup credentials "client_id" with
              | none => .error (.exc "KeyError" "client_id")
              | some _ => .ok credentials

/-- Value of a hexadecimal digit character, if it is one; both letter cases
are accepted, matching what urllib accepts in percent escapes. -/
def hexVal (c : Char) : Option Nat :=
  let n := c.toNat
  if 48 ≤ n ∧ n ≤ 57 then some (n - 48)
  else if 65 ≤ n ∧ n ≤ 70 then some (n - 55)
  else if 97 ≤ n ∧ n ≤ 102 then some (n - 87)
  else none

/-- Core of urllib.parse.unquote: each percent sign followed by two hex
digits becomes the character of that value; malformed escapes pass through
unchanged.  One call removes exactly one layer of percent-encoding. -/
def unquoteChars : List Char → List Char
  | [] => []
  | '%' :: a :: b :: rest2 =>
    match hexVal a, hexVal b with
    | some x, some y => Char.ofNat (16 * x + y) :: unquoteChars rest2
    | _, _ => '%' :: unquoteChars (a :: b :: rest2)
  | c :: rest => c :: unquoteChars rest

/-- urllib.parse.unquote on a string. -/
def unquote (s : String) : String :=
  ⟨unquoteChars s.data⟩

/-- Characters urllib.parse.quote_plus leaves unescaped. -/
def isSafeChar (c : Char) : Bool :=
  ('A' ≤ c && c ≤ 'Z') || ('a' ≤ c && c ≤ 'z') || ('0' ≤ c && c ≤ '9') ||
    c = '_' || c = '-' || c = '.' || c = '~'

/-- Uppercase hexadecimal digit character for a value below 16. -/
def hexChar (n : Nat) : Char :=
  if n < 10 then Char.ofNat ('0'.toNat + n) else Char.ofNat ('A'.toNat + n - 10)

/-- urllib.parse.quote_plus on one character: space becomes a plus, safe
characters pass through, the rest are percent-escaped. -/
def quotePlusChar (c : Char) : List Char :=
  if c = ' ' then ['+']
  else if isSafeChar c then [c]
  else ['%', hexChar (c.toNat / 16 % 16), hexChar (c.toNat % 16)]

/-- urllib.parse.quote_plus on a string. -/
def quotePlus (s : String) : String :=
  ⟨(s.data.map quotePlusChar).flatten⟩

/-- urllib.parse.urlencode on the credentials dict: key=value pairs joined
with ampersands, keys and values quoted, values rendered with str (). -/
def urlencode (credentials : JObj) : String :=
  joinSep "&" (credentials.map (fun kv => quotePlus kv.1 ++ "=" ++ quotePlus (pyStr kv.2)))

/-- forwardPort from the source: form-encodes the credentials and posts them
to the endpoint; a URLError/HTTPError exits 6 wrapping the transport error.
On success the body is decoded with the declared charset, falling back to the
default when the header omits it, one layer of percent-encoding is removed,
and the result is parsed as JSON; a parse failure exits 7 with the unescaped
text in the diagnostic. -/
def forwardPort (env : Env) (credentials : JObj) (endpointURL : String) (timeout : Nat) : PR JObj :=
  let parameters := urlencode credentials
  match env.post endpointURL parameters timeout with
  | .error urlError =>
    .error (.exited (handleError ("Error posting to endpoint URL: " ++ endpointURL) 6 (some urlError)))
  | .ok connection =>
    let responseEncoding := match connection.charset with
      | none => DEFAULT_ENCODING
      | some c => c
    let responseString := env.decodeBytes connection.body responseEncoding
    let nonHTTPResponse := unquote responseString
    match env.parseJSON nonHTTPResponse with
    | .ok parsed => .ok parsed
    | .error jsonError =>
      .error (.exited (handleError
        ("The API response is malformed, refer to the response text and the exception message below\n\nResponse text: "
          ++ nonHTTPResponse) 7 (some jsonError)))

/-- The response classification at the end of main: a port key means success
and the port value is printed; otherwise an error key exits 8 with the error
value in the message; otherwise the script exits 9 listing every key/value
pair of the response. -/
def classifyResponse (response : JObj) : PR String :=
  match alookup response "port" with
  | some v => .ok ("Forwarded port: " ++ pyStr v)
  | none =>
    match alookup response "error" with
    | some v => .error (.exited (handleError ("API returned an error: " ++ pyStr v) 8 none))
    | none =>
      let keyValues := response.map (fun kv => kv.1 ++ ": " ++ pyStr kv.2)
      .error (.exited (handleError
        (concatStringToList "API returned unknown key/value pair(s):\n\n" keyValues) 9 none))

/-- main from the source, threaded through the effect environment: connection
check (exit 1 when the interface is down), credential loading, the API call,
then response classification. -/
def main (env : Env) (credentialsfile : String) : PR String :=
  let ENDPOINT := "https://www.privateinternetaccess.com/vpninfo/port_forward_assignment"
  let INTERFACE := "tun0"
  let TIMEOUT := 10
  if isConnected env.net INTERFACE = false then
    .error (.exited (handleError
      ("VPN interface: \x27" ++ INTERFACE ++
        "\x27 is not connected, please connect it first\nBe sure the INTERFACE variable is correctly set if your VPN is actually connected")
      1 none))
  else
    match getCredentials env credentialsfile INTERFACE with
    | .error f => .error f
    | .ok credentials =>
      match forwardPort env credentials ENDPOINT TIMEOUT with
      | .error f => .error f
      | .ok response => classifyResponse response

/-! Helper lemmas about the string and dict operations. -/

theorem strApp_assoc (a b c : String) : a ++ b ++ c = a ++ (b ++ c) := by
  apply String.ext
  simp [String.data_append, List.append_assoc]

theorem strApp_empty (a : String) : a ++ "" = a := by
  apply String.ext
  simp [String.data_append]

theorem strEmpty_app (a : String) : "" ++ a = a := by
  apply String.ext
  simp [String.data_append]

/-- Every member of a joined list occurs verbatim inside the joined string. -/
theorem mem_joinSep (sep x : String) : ∀ (l : List String), x ∈ l →
    ∃ p q, joinSep sep l = p ++ x ++ q
  | [], hx => absurd hx (by simp)
  | [s], hx => by
    have hs : x = s := by simpa using hx
    subst hs
    exact ⟨"", "", by simp [joinSep, strApp_empty, strEmpty_app]⟩
  | s :: t :: rest, hx => by
    rcases List.mem_cons.mp hx with h | h
    · subst h
      refine ⟨"", sep ++ joinSep sep (t :: rest), ?_⟩
      apply String.ext
      simp [joinSep, String.data_append, List.append_assoc]
    · rcases mem_joinSep sep x (t :: rest) h with ⟨p, q, hpq⟩
      refine ⟨s ++ sep ++ p, q, ?_⟩
      apply String.ext
      simp [joinSep, hpq, String.data_append, List.append_assoc]

theorem alookup_append {κ α : Type} [DecidableEq κ] (m m2 : List (κ × α)) (k : κ) :
    alookup (m ++ m2) k = match alookup m k with
      | some v => some v
      | none => alookup m2 k := by
  induction m with
  | nil => simp [alookup]
  | cons kv rest ih =>
    obtain ⟨k1, v1⟩ := kv
    by_cases h : k1 = k
    · simp [alookup, h]
    · simp [alookup, h, ih]

theorem alookup_eq_none_of_not_mem {κ α : Type} [DecidableEq κ]
    (m : List (κ × α)) (k : κ) (h : k ∉ m.map Prod.fst) :
    alookup m k = none := by
  induction m with
  | nil => rfl
  | cons kv rest ih =>
    obtain ⟨k1, v1⟩ := kv
    simp only [List.map_cons, List.mem_cons] at h
    push_neg at h
    have hne : ¬ k1 = k := fun hh => h.1 hh.symm
    simp [alookup, hne, ih h.2]

theorem replaceKV_eq_of_eq (k : String) (v v1 : JVal) :
    replaceKV k v (k, v1) = (k, v) := by
  simp [replaceKV]

theorem replaceKV_eq_of_ne (k k1 : String) (v : JVal) (v1 : JVal) (h : ¬ k1 = k) :
    replaceKV k v (k1, v1) = (k1, v1) := by
  simp [replaceKV, h]

theorem alookup_map_replace (m : JObj) (k : String) (v : JVal)
    (h : k ∈ m.map Prod.fst) :
    alookup (m.map (replaceKV k v)) k = some v := by
  induction m with
  | nil => simp at h
  | cons kv rest ih =>
    obtain ⟨k1, v1⟩ := kv
    by_cases hk : k1 = k
    · subst hk
      rw [List.map_cons, replaceKV_eq_of_eq]
      simp [alookup]
    · have h2 : k ∈ rest.map Prod.fst := by
        simp only [List.map_cons, List.mem_cons] at h
        rcases h with h | h
        · exact absurd h.symm hk
        · exact h
      rw [List.map_cons, replaceKV_eq_of_ne k k1 v v1 hk]
      simp [alookup, hk, ih h2]

theorem alookup_map_replace_ne (m : JObj) (k k2 : String) (v : JVal) (hne : k2 ≠ k) :
    alookup (m.map (replaceKV k v)) k2 = alookup m k2 := by
  induction m with
  | nil => rfl
  | cons kv rest ih =>
    obtain ⟨k1, v1⟩ := kv
    by_cases hk : k1 = k
    · subst hk
      have hne2 : ¬ k1 = k2 := fun hh => hne hh.symm
      rw [List.map_cons, replaceKV_eq_of_eq]
      simp [alookup, hne2, ih]
    · rw [List.map_cons, replaceKV_eq_of_ne k k1 v v1 hk]
      simp [alookup, ih]

theorem alookup_dictSet_self (m : JObj) (k : String) (v : JVal) :
    alookup (dictSet m k v) k = some v := by
  by_cases h : (m.map Prod.fst).contains k = true
  · unfold dictSet
    rw [if_pos h]
    exact alookup_map_replace m k v (by simpa using h)
  · unfold dictSet
    rw [if_neg h, alookup_append, alookup_eq_none_of_not_mem m k (by simpa using h)]
    simp [alookup]

theorem alookup_dictSet_ne (m : JObj) (k k2 : String) (v : JVal) (hne : k2 ≠ k) :
    alookup (dictSet m k v) k2 = alookup m k2 := by
  by_cases h : (m.map Prod.fst).contains k = true
  · unfold dictSet
    rw [if_pos h]
    exact alookup_map_replace_ne m k k2 v hne
  · unfold dictSet
    rw [if_neg h, alookup_append]
    cases hm : alookup m k2 with
    | some v2 => rfl
    | none =>
      have hkk : ¬ k = k2 := fun hh => hne hh.symm
      simp [alookup, hkk]

theorem map_fst_replace (m : JObj) (k : String) (v : JVal) :
    (m.map (replaceKV k v)).map Prod.fst = m.map Prod.fst := by
  induction m with
  | nil => rfl
  | cons kv rest ih =>
    obtain ⟨k1, v1⟩ := kv
    by_cases hk : k1 = k
    · subst hk
      simp [replaceKV, ih]
    · simp [replaceKV, hk, ih]

theorem any_keys_dictSet (m : JObj) (k : String) (v : JVal) (p : String → Bool)
    (hk : p k = false) :
    ((dictSet m k v).map Prod.fst).any p = (m.map Prod.fst).any p := by
  by_cases h : (m.map Prod.fst).contains k = true
  · unfold dictSet
    rw [if_pos h, map_fst_replace]
  · unfold dictSet
    rw [if_neg h]
    simp [List.map_append, List.any_append, hk]

theorem any_of_alookup {α : Type} (m : List (String × α)) (k : String) (v : α)
    (p : String → Bool) (h : alookup m k = some v) (hp : p k = true) :
    (m.map Prod.fst).any p = true := by
  induction m with
  | nil => exact absurd h (by simp [alookup])
  | cons kv rest ih =>
    obtain ⟨k1, v1⟩ := kv
    by_cases hk : k1 = k
    · subst hk
      simp [hp]
    · have h2 : alookup rest k = some v := by
        simpa [alookup, hk] using h
      simp [List.any_cons, ih h2]

/-! Test fixtures used by the witnesses. -/

/-- Test interface table: one tun0 interface with a single IPv4 address. -/
def wNet : NetState := ⟨[("tun0", [(AF_INET, [⟨"10.8.0.2"⟩])])]⟩

/-- Test credentials object carrying all three required keys. -/
def wCreds : JObj := [("user", .str "u"), ("pass", .str "p"), ("client_id", .str "c")]

/-- Test environment whose POST fails with a timeout. -/
def wEnvTimeout : Env :=
  { net := wNet,
    readFile := fun _ => .ok "x",
    parseJSON := fun _ => .ok wCreds,
    post := fun _ _ _ => .error "timed out",
    decodeBytes := fun b _ => b }

/-- Test environment whose POST succeeds with an unparseable body. -/
def wEnvBadBody : Env :=
  { net := wNet,
    readFile := fun _ => .ok "x",
    parseJSON := fun _ => .error "Expecting value: line 1 column 1 (char 0)",
    post := fun _ _ _ => .ok ⟨"notjson", none⟩,
    decodeBytes := fun b _ => b }

/-- Test environment whose credentials file is unreadable. -/
def wEnvNoFile : Env :=
  { net := wNet,
    readFile := fun _ => .error "No such file or directory",
    parseJSON := fun _ => .ok wCreds,
    post := fun _ _ _ => .error "unused",
    decodeBytes := fun b _ => b }

/-! Claim theorems. -/

/-- C10: handleError, for any message, exit code inside the table, and
optional cause, prints the message first, then the cause text when one is
given, then the exit code paired with its description from the static table,
and terminates the process with exactly that code.  Its result is the
terminal ErrorExit value consumed as the final Except error by every caller,
so it never returns control to the invoking component. -/
theorem handleError_reports_and_exits (m : String) (c : Nat) (x : Option String)
    (hc : c < exitCodes.length) :
    (handleError m c x).code = c ∧
    (handleError m c x).output =
      [m, ""] ++ (match x with | some e => [e, ""] | none => []) ++
      ["Exiting with exit status: " ++ toString c ++ ", " ++ exitCodes.get ⟨c, hc⟩] := by
  refine ⟨rfl, ?_⟩
  have hg : exitCodes.getD c "" = exitCodes.get ⟨c, hc⟩ := by
    rw [List.getD_eq_getElem?_getD, List.getElem?_eq_getElem hc]
    rfl
  unfold handleError
  rw [hg]

/-- Witness for C10 at message x, code 8, cause boom. -/
theorem handleError_reports_and_exits_witness :
    (handleError "x" 8 (some "boom")).code = 8 ∧
    (handleError "x" 8 (some "boom")).output =
      ["x", ""] ++ (match some "boom" with | some e => [e, ""] | none => []) ++
      ["Exiting with exit status: " ++ toString 8 ++ ", " ++ exitCodes.get ⟨8, by decide⟩] :=
  handleError_reports_and_exits "x" 8 (some "boom") (by decide)

/-- C1: the response classification is a three-way dispatch with fixed
priority: a port key yields success printing the port value; otherwise an
error key exits 8 with the error value verbatim in the message; otherwise
the script exits 9 with a message listing every key/value pair; and every
JSON object, the empty one included, lands in exactly one of the three
branches. -/
theorem classifyResponse_three_way (r : JObj) :
    (∀ v, alookup r "port" = some v →
      classifyResponse r = .ok ("Forwarded port: " ++ pyStr v)) ∧
    (∀ v, alookup r "port" = none → alookup r "error" = some v →
      classifyResponse r =
        .error (.exited (handleError ("API returned an error: " ++ pyStr v) 8 none))) ∧
    (alookup r "port" = none → alookup r "error" = none →
      ∃ msg, classifyResponse r = .error (.exited (handleError msg 9 none)) ∧
        ∀ kv ∈ r, ∃ p q, msg = p ++ (kv.1 ++ ": " ++ pyStr kv.2) ++ q) ∧
    ((∃ v, classifyResponse r = .ok ("Forwarded port: " ++ pyStr v)) ∨
     (∃ ee, classifyResponse r = .error (.exited ee) ∧ (ee.code = 8 ∨ ee.code = 9))) := by
  refine ⟨?_, ?_, ?_, ?_⟩
  · intro v hv
    simp [classifyResponse, hv]
  · intro v hp he
    simp [classifyResponse, hp, he]
  · intro hp he
    refine ⟨concatStringToList "API returned unknown key/value pair(s):\n\n"
      (r.map (fun kv => kv.1 ++ ": " ++ pyStr kv.2)), ?_, ?_⟩
    · simp [classifyResponse, hp, he]
    · intro kv hkv
      have hmem : (kv.1 ++ ": " ++ pyStr kv.2) ∈ r.map (fun kv => kv.1 ++ ": " ++ pyStr kv.2) :=
        List.mem_map_of_mem _ hkv
      rcases mem_joinSep "\n" (kv.1 ++ ": " ++ pyStr kv.2) _ hmem with ⟨p, q, hpq⟩
      refine ⟨"API returned unknown key/value pair(s):\n\n" ++ p, q, ?_⟩
      unfold concatStringToList
      rw [hpq]
      apply String.ext
      simp [String.data_append, List.append_assoc]
  · cases hp : alookup r "port" with
    | some v =>
      exact Or.inl ⟨v, by simp [classifyResponse, hp]⟩
    | none =>
      cases he : alookup r "error" with
      | some v =>
        exact Or.inr ⟨handleError ("API returned an error: " ++ pyStr v) 8 none,
          by simp [classifyResponse, hp, he], Or.inl rfl⟩
      | none =>
        exact Or.inr ⟨handleError (concatStringToList "API returned unknown key/value pair(s):\n\n"
            (r.map (fun kv => kv.1 ++ ": " ++ pyStr kv.2))) 9 none,
          by simp [classifyResponse, hp, he], Or.inr rfl⟩

/-- Witness for C1 at the response carrying port 12345. -/
theorem classifyResponse_three_way_witness :
    classifyResponse [("port", JVal.num 12345)] =
      .ok ("Forwarded port: " ++ pyStr (JVal.num 12345)) :=
  (classifyResponse_three_way [("port", JVal.num 12345)]).1 (JVal.num 12345) rfl

/-- C4: any transport-level failure of the HTTP POST (the underlying client
reports DNS failures, refused connections, timeouts and non-2xx statuses as
URLError/HTTPError) makes forwardPort exit 6 wrapping the transport error
text, and it never yields a success value in that case. -/
theorem forwardPort_transport_failure (env : Env) (credentials : JObj)
    (endpointURL : String) (timeout : Nat) (e : String)
    (hpost : env.post endpointURL (urlencode credentials) timeout = .error e) :
    forwardPort env credentials endpointURL timeout =
      .error (.exited (handleError ("Error posting to endpoint URL: " ++ endpointURL) 6 (some e))) ∧
    ∀ r, forwardPort env credentials endpointURL timeout ≠ .ok r := by
  have hmain : forwardPort env credentials endpointURL timeout =
      .error (.exited (handleError ("Error posting to endpoint URL: " ++ endpointURL) 6 (some e))) := by
    simp [forwardPort, hpost]
  refine ⟨hmain, fun r hr => ?_⟩
  rw [hmain] at hr
  exact Except.noConfusion hr

/-- Witness for C4 with a timed-out POST. -/
theorem forwardPort_transport_failure_witness :
    forwardPort wEnvTimeout wCreds "https://example.com" 10 =
      .error (.exited (handleError ("Error posting to endpoint URL: " ++ "https://example.com")
        6 (some "timed out"))) :=
  (forwardPort_transport_failure wEnvTimeout wCreds "https://example.com" 10 "timed out" rfl).1

/-- C5: on a successfully received HTTP response, forwardPort decodes the
body with the charset declared in the content-type header, falling back to
utf-8 when none is declared, removes exactly one layer of percent-encoding
from the decoded text before JSON parsing, returns the parsed object on
success, and on a JSON parse failure exits 7 wrapping the parse cause with
the raw unescaped response text inside the diagnostic. -/
theorem forwardPort_decode_and_parse (env : Env) (credentials : JObj)
    (endpointURL : String) (timeout : Nat) (resp : HTTPResponse)
    (hpost : env.post endpointURL (urlencode credentials) timeout = .ok resp) :
    (∀ v, env.parseJSON (unquote (env.decodeBytes resp.body (resp.charset.getD DEFAULT_ENCODING))) = .ok v →
      forwardPort env credentials endpointURL timeout = .ok v) ∧
    (∀ pe, env.parseJSON (unquote (env.decodeBytes resp.body (resp.charset.getD DEFAULT_ENCODING))) = .error pe →
      forwardPort env credentials endpointURL timeout =
        .error (.exited (handleError
          ("The API response is malformed, refer to the response text and the exception message below\n\nResponse text: "
            ++ unquote (env.decodeBytes resp.body (resp.charset.getD DEFAULT_ENCODING))) 7 (some pe)))) := by
  have henc : (match resp.charset with | none => DEFAULT_ENCODING | some c => c)
      = resp.charset.getD DEFAULT_ENCODING := by
    cases resp.charset <;> rfl
  constructor
  · intro v hv
    simp only [forwardPort, hpost]
    rw [henc, hv]
  · intro pe hpe
    simp only [forwardPort, hpost]
    rw [henc, hpe]

/-- Witness for C5 at a charset-free response whose body fails to parse. -/
theorem forwardPort_decode_and_parse_witness :
    forwardPort wEnvBadBody wCreds "https://example.com" 10 =
      .error (.exited (handleError
        ("The API response is malformed, refer to the response text and the exception message below\n\nResponse text: "
          ++ unquote (wEnvBadBody.decodeBytes (HTTPResponse.mk "notjson" none).body
              ((HTTPResponse.mk "notjson" none).charset.getD DEFAULT_ENCODING)))
        7 (some "Expecting value: line 1 column 1 (char 0)"))) :=
  (forwardPort_decode_and_parse wEnvBadBody wCreds "https://example.com" 10
    (HTTPResponse.mk "notjson" none) rfl).2 "Expecting value: line 1 column 1 (char 0)" rfl

/-- C9: getCredentials exits 2 wrapping the I/O cause whenever the file read
fails, for any cause uniformly, and exits 3 wrapping the parse cause whenever
the read succeeds but the contents fail to parse as JSON; the exact result
equalities show these are the only outcomes reachable before a successful
parse. -/
theorem getCredentials_read_and_parse_failures (env : Env) (credentialsPath interface : String) :
    (∀ e, env.readFile credentialsPath = .error e →
      getCredentials env credentialsPath interface =
        .error (.exited (handleError
          ("Credentials file: \x27" ++ credentialsPath ++ "\x27 does not exist or cannot be opened")
          2 (some e)))) ∧
    (∀ s pe, env.readFile credentialsPath = .ok s → env.parseJSON s = .error pe →
      getCredentials env credentialsPath interface =
        .error (.exited (handleError
          ("JSON file: \x27" ++ credentialsPath ++
            "\x27 is malformed, refer to the README or the exception message below for the correct format")
          3 (some pe)))) := by
  constructor
  · intro e he
    simp [getCredentials, he]
  · intro s pe hs hpe
    simp [getCredentials, hs, hpe]

/-- Witness for C9 at a missing credentials file. -/
theorem getCredentials_read_and_parse_failures_witness :
    getCredentials wEnvNoFile "missing.json" "tun0" =
      .error (.exited (handleError
        ("Credentials file: \x27" ++ "missing.json" ++ "\x27 does not exist or cannot be opened")
        2 (some "No such file or directory"))) :=
  (getCredentials_read_and_parse_failures wEnvNoFile "missing.json" "tun0").1
    "No such file or directory" rfl

/-- The single-address test table is well formed. -/
theorem wNet_wf : WellFormed wNet := by
  intro interface fams hf fam l hl
  simp only [wNet, alookup] at hf
  split at hf
  · cases hf
    simp only [alookup] at hl
    split at hl
    · cases hl
      simp
    · cases hl
  · cases hf

/-- C6: isConnected returns false when the interface is absent from the OS
interface table; otherwise it returns true exactly when the interface has at
least one address in the IPv4 family (netifaces reports the family key
exactly in that case, and link state is never consulted). -/
theorem isConnected_iff_ipv4_present (ns : NetState) (interface : String)
    (hwf : WellFormed ns) :
    (alookup ns.table interface = none → isConnected ns interface = false) ∧
    (∀ fams, alookup ns.table interface = some fams →
      (isConnected ns interface = true ↔
        0 < ((alookup fams AF_INET).getD []).length)) := by
  constructor
  · intro h
    simp [isConnected, h]
  · intro fams hf
    simp only [isConnected, hf]
    cases hl : alookup fams AF_INET with
    | none => simp
    | some l =>
      have hne : l ≠ [] := hwf interface fams hf AF_INET l hl
      simp [List.length_pos, hne]

/-- Witness for C6 at the test table and tun0. -/
theorem isConnected_iff_ipv4_present_witness :
    isConnected wNet "tun0" = true ↔
      0 < ((alookup [(AF_INET, [AddrRec.mk "10.8.0.2"])] AF_INET).getD []).length :=
  (isConnected_iff_ipv4_present wNet "tun0" wNet_wf).2 [(AF_INET, [AddrRec.mk "10.8.0.2"])] rfl

/-- C7: getIPAddress on an interface with more than one IPv4 address exits 5
with a diagnostic listing every discovered record, each discovered address
text occurring verbatim inside the message; with exactly one address it
returns that address text exactly, touching nothing else. -/
theorem getIPAddress_address_count (ns : NetState) (interface : String)
    (fams : List (Nat × List AddrRec)) (l : List AddrRec)
    (hif : alookup ns.table interface = some fams)
    (hl : alookup fams AF_INET = some l) :
    (1 < l.length → ∃ msg, getIPAddress ns interface =
        .error (.exited (handleError msg 5 none)) ∧
        ∀ a ∈ l, ∃ p q, msg = p ++ a.addr ++ q) ∧
    (∀ a, l = [a] → getIPAddress ns interface = .ok a.addr) := by
  constructor
  · intro hgt
    refine ⟨concatStringToList
      ("Receieved " ++ toString l.length ++
        " IPV4 address(es) for your VPN interface: \x27" ++ interface ++
        "\x27, expected: " ++ toString ADDRESS_LIMIT ++ "\nAddresses:\n\n")
      (l.map AddrRec.pyRepr), ?_, ?_⟩
    · simp only [getIPAddress, hif, hl]
      rw [if_pos (show l.length > ADDRESS_LIMIT from hgt)]
    · intro a ha
      have hmem : AddrRec.pyRepr a ∈ l.map AddrRec.pyRepr := List.mem_map_of_mem _ ha
      rcases mem_joinSep "\n" (AddrRec.pyRepr a) (l.map AddrRec.pyRepr) hmem with ⟨p, q, hpq⟩
      refine ⟨("Receieved " ++ toString l.length ++
          " IPV4 address(es) for your VPN interface: \x27" ++ interface ++
          "\x27, expected: " ++ toString ADDRESS_LIMIT ++ "\nAddresses:\n\n") ++ p ++
          "\x7b\x27addr\x27: \x27", "\x27\x7d" ++ q, ?_⟩
      unfold concatStringToList
      rw [hpq]
      simp only [AddrRec.pyRepr]
      apply String.ext
      simp [String.data_append, List.append_assoc]
  · intro a hla
    subst hla
    simp [getIPAddress, hif, hl, ADDRESS_LIMIT]

/-- Test interface table with two IPv4 addresses on tun0. -/
def wNet2 : NetState := ⟨[("tun0", [(AF_INET, [⟨"10.8.0.2"⟩, ⟨"10.8.0.3"⟩])])]⟩

/-- Witness for C7 at the two-address table. -/
theorem getIPAddress_address_count_witness :
    ∃ msg, getIPAddress wNet2 "tun0" = .error (.exited (handleError msg 5 none)) ∧
      ∀ a ∈ [AddrRec.mk "10.8.0.2", AddrRec.mk "10.8.0.3"],
        ∃ p q, msg = p ++ a.addr ++ q :=
  (getIPAddress_address_count wNet2 "tun0" [(AF_INET, [⟨"10.8.0.2"⟩, ⟨"10.8.0.3"⟩])]
    [⟨"10.8.0.2"⟩, ⟨"10.8.0.3"⟩] rfl rfl).1 (by decide)

/-- C8: once isConnected has returned true for the interface (the OS table
being well formed, netifaces reporting no empty family list), the
IPv4-family lookup inside getIPAddress cannot fail: getIPAddress either
returns an address or exits 5 on an address surplus, and never raises a
Python exception, so the zero-address branch is unreachable. -/
theorem getIPAddress_total_when_connected (ns : NetState) (interface : String)
    (hwf : WellFormed ns) (hc : isConnected ns interface = true) :
    ((∃ a, getIPAddress ns interface = .ok a) ∨
     (∃ ee, getIPAddress ns interface = .error (.exited ee) ∧ ee.code = 5)) ∧
    (∀ t m, getIPAddress ns interface ≠ .error (.exc t m)) := by
  unfold isConnected at hc
  cases hf : alookup ns.table interface with
  | none =>
    rw [hf] at hc
    cases hc
  | some fams =>
    rw [hf] at hc
    have hc2 : (alookup fams AF_INET).isSome = true := by simpa using hc
    cases hl : alookup fams AF_INET with
    | none =>
      rw [hl] at hc2
      cases hc2
    | some l =>
      have hne : l ≠ [] := hwf interface fams hf AF_INET l hl
      by_cases hgt : l.length > ADDRESS_LIMIT
      · have hres : getIPAddress ns interface =
            .error (.exited (handleError (concatStringToList
              ("Receieved " ++ toString l.length ++
                " IPV4 address(es) for your VPN interface: \x27" ++ interface ++
                "\x27, expected: " ++ toString ADDRESS_LIMIT ++ "\nAddresses:\n\n")
              (l.map AddrRec.pyRepr)) 5 none)) := by
          simp only [getIPAddress, hf, hl]
          rw [if_pos (show l.length > ADDRESS_LIMIT from hgt)]
        refine ⟨Or.inr ⟨_, hres, rfl⟩, fun t m hx => ?_⟩
        rw [hres] at hx
        simp at hx
      · cases l with
        | nil => exact absurd rfl hne
        | cons a t =>
          cases t with
          | nil =>
            have hres : getIPAddress ns interface = .ok a.addr := by
              simp [getIPAddress, hf, hl, ADDRESS_LIMIT]
            refine ⟨Or.inl ⟨a.addr, hres⟩, fun t m hx => ?_⟩
            rw [hres] at hx
            cases hx
          | cons b t2 =>
            have hgt2 : (a :: b :: t2).length > ADDRESS_LIMIT := by
              simp only [List.length_cons, ADDRESS_LIMIT]
              omega
            exact absurd hgt2 hgt

/-- Witness for C8 at the connected single-address table. -/
theorem getIPAddress_total_when_connected_witness :
    ((∃ a, getIPAddress wNet "tun0" = .ok a) ∨
     (∃ ee, getIPAddress wNet "tun0" = .error (.exited ee) ∧ ee.code = 5)) ∧
    (∀ t m, getIPAddress wNet "tun0" ≠ .error (.exc t m)) :=
  getIPAddress_total_when_connected wNet "tun0" wNet_wf rfl

/-- Test environment loading the full credentials object. -/
def wEnvFull : Env :=
  { net := wNet,
    readFile := fun _ => .ok "x",
    parseJSON := fun _ => .ok wCreds,
    post := fun _ _ _ => .error "unused",
    decodeBytes := fun b _ => b }

/-- Test credentials object holding only the user key. -/
def wCredsPartial : JObj := [("user", .str "u")]

/-- Test environment loading the partial credentials object. -/
def wEnvPartial : Env :=
  { net := wNet,
    readFile := fun _ => .ok "x",
    parseJSON := fun _ => .ok wCredsPartial,
    post := fun _ _ _ => .error "unused",
    decodeBytes := fun b _ => b }

/-- C2: with a readable file parsing to a JSON object and the interface
resolving to a single local address, getCredentials fails with exit code 4
exactly when the parsed key set misses all of user, pass and client_id (an
at-least-one intersection check, not all-of); and when all three keys are
present it returns the mapping still binding those three keys plus local_ip
bound to the resolved address. -/
theorem getCredentials_required_key_check (env : Env) (credentialsPath interface : String)
    (s : String) (parsed : JObj) (localIP : String)
    (hr : env.readFile credentialsPath = .ok s)
    (hp : env.parseJSON s = .ok parsed)
    (hip : getIPAddress env.net interface = .ok localIP) :
    ((∃ ee, getCredentials env credentialsPath interface = .error (.exited ee) ∧ ee.code = 4) ↔
      (parsed.map Prod.fst).any requiredKeyB = false) ∧
    (alookup parsed "user" ≠ none → alookup parsed "pass" ≠ none →
      alookup parsed "client_id" ≠ none →
      ∃ c, getCredentials env credentialsPath interface = .ok c ∧
        alookup c "user" = alookup parsed "user" ∧
        alookup c "pass" = alookup parsed "pass" ∧
        alookup c "client_id" = alookup parsed "client_id" ∧
        alookup c "local_ip" = some (.str localIP)) := by
  have hkeys : ((dictSet parsed "local_ip" (JVal.str localIP)).map Prod.fst).any requiredKeyB
      = (parsed.map Prod.fst).any requiredKeyB :=
    any_keys_dictSet parsed "local_ip" (JVal.str localIP) requiredKeyB (by decide)
  constructor
  · cases hb : (parsed.map Prod.fst).any requiredKeyB with
    | false =>
      have hres : getCredentials env credentialsPath interface =
          .error (.exited (handleError ("Credentials file: " ++ credentialsPath ++
            " is missing required keys. See the required format in the README") 4 none)) := by
        simp [getCredentials, hr, hp, hip, hkeys, hb]
      exact ⟨fun _ => rfl, fun _ => ⟨_, hres, rfl⟩⟩
    | true =>
      constructor
      · rintro ⟨ee, hee, hcode⟩
        cases hcu : alookup (dictSet parsed "local_ip" (JVal.str localIP)) "user" with
        | none =>
          have hx : getCredentials env credentialsPath interface =
              .error (.exc "KeyError" "user") := by
            simp [getCredentials, hr, hp, hip, hkeys, hb, hcu]
          rw [hx] at hee
          simp at hee
        | some u =>
          cases hcp2 : alookup (dictSet parsed "local_ip" (JVal.str localIP)) "pass" with
          | none =>
            have hx : getCredentials env credentialsPath interface =
                .error (.exc "KeyError" "pass") := by
              simp [getCredentials, hr, hp, hip, hkeys, hb, hcu, hcp2]
            rw [hx] at hee
            simp at hee
          | some pw =>
            cases hcc2 : alookup (dictSet parsed "local_ip" (JVal.str localIP)) "client_id" with
            | none =>
              have hx : getCredentials env credentialsPath interface =
                  .error (.exc "KeyError" "client_id") := by
                simp [getCredentials, hr, hp, hip, hkeys, hb, hcu, hcp2, hcc2]
              rw [hx] at hee
              simp at hee
            | some cid =>
              have hx : getCredentials env credentialsPath interface =
                  .ok (dictSet parsed "local_ip" (JVal.str localIP)) := by
                simp [getCredentials, hr, hp, hip, hkeys, hb, hcu, hcp2, hcc2]
              rw [hx] at hee
              simp at hee
      · intro hfalse
        exact Bool.noConfusion hfalse
  · intro hu hpw hcid
    cases hu2 : alookup parsed "user" with
    | none => exact absurd hu2 hu
    | some u =>
    cases hp2 : alookup parsed "pass" with
    | none => exact absurd hp2 hpw
    | some pw =>
    cases hc2 : alookup parsed "client_id" with
    | none => exact absurd hc2 hcid
    | some cid =>
    have hcu : alookup (dictSet parsed "local_ip" (JVal.str localIP)) "user" = some u := by
      rw [alookup_dictSet_ne parsed "local_ip" "user" (JVal.str localIP) (by decide)]
      exact hu2
    have hcp2 : alookup (dictSet parsed "local_ip" (JVal.str localIP)) "pass" = some pw := by
      rw [alookup_dictSet_ne parsed "local_ip" "pass" (JVal.str localIP) (by decide)]
      exact hp2
    have hcc2 : alookup (dictSet parsed "local_ip" (JVal.str localIP)) "client_id" = some cid := by
      rw [alookup_dictSet_ne parsed "local_ip" "client_id" (JVal.str localIP) (by decide)]
      exact hc2
    have hb : (parsed.map Prod.fst).any requiredKeyB = true :=
      any_of_alookup parsed "user" u requiredKeyB hu2 (by decide)
    have hres : getCredentials env credentialsPath interface =
        .ok (dictSet parsed "local_ip" (JVal.str localIP)) := by
      simp [getCredentials, hr, hp, hip, hkeys, hb, hcu, hcp2, hcc2]
    refine ⟨dictSet parsed "local_ip" (JVal.str localIP), hres, ?_, ?_, ?_, ?_⟩
    · rw [hcu]
    · rw [hcp2]
    · rw [hcc2]
    · exact alookup_dictSet_self parsed "local_ip" (JVal.str localIP)

/-- Witness for C2 at the full credentials object. -/
theorem getCredentials_required_key_check_witness :
    ∃ c, getCredentials wEnvFull "creds.json" "tun0" = .ok c ∧
      alookup c "user" = alookup wCreds "user" ∧
      alookup c "pass" = alookup wCreds "pass" ∧
      alookup c "client_id" = alookup wCreds "client_id" ∧
      alookup c "local_ip" = some (.str "10.8.0.2") :=
  (getCredentials_required_key_check wEnvFull "creds.json" "tun0" "x" wCreds "10.8.0.2"
    rfl rfl rfl).2 (by decide) (by decide) (by decide)

/-- C3: with a readable file parsing to a JSON object and the interface
resolving, a credentials object holding at least one but not all of the
required keys drives getCredentials into an uncaught KeyError, because the
debugPrint call arguments index the dict unconditionally even with debugging
off; the raised key is a missing required key, and the function neither
returns a mapping nor exits through the error taxonomy. -/
theorem getCredentials_partial_keys_keyerror (env : Env) (credentialsPath interface : String)
    (s : String) (parsed : JObj) (localIP : String)
    (hr : env.readFile credentialsPath = .ok s)
    (hp : env.parseJSON s = .ok parsed)
    (hip : getIPAddress env.net interface = .ok localIP)
    (hsome : (parsed.map Prod.fst).any requiredKeyB = true)
    (hnotall : alookup parsed "user" = none ∨ alookup parsed "pass" = none ∨
      alookup parsed "client_id" = none) :
    ∃ k, (k = "user" ∨ k = "pass" ∨ k = "client_id") ∧ alookup parsed k = none ∧
      getCredentials env credentialsPath interface = .error (.exc "KeyError" k) := by
  have hkeys : ((dictSet parsed "local_ip" (JVal.str localIP)).map Prod.fst).any requiredKeyB
      = (parsed.map Prod.fst).any requiredKeyB :=
    any_keys_dictSet parsed "local_ip" (JVal.str localIP) requiredKeyB (by decide)
  cases hu2 : alookup parsed "user" with
  | none =>
    have hcu : alookup (dictSet parsed "local_ip" (JVal.str localIP)) "user" = none := by
      rw [alookup_dictSet_ne parsed "local_ip" "user" (JVal.str localIP) (by decide)]
      exact hu2
    refine ⟨"user", Or.inl rfl, hu2, ?_⟩
    simp [getCredentials, hr, hp, hip, hkeys, hsome, hcu]
  | some u =>
    have hcu : alookup (dictSet parsed "local_ip" (JVal.str localIP)) "user" = some u := by
      rw [alookup_dictSet_ne parsed "local_ip" "user" (JVal.str localIP) (by decide)]
      exact hu2
    cases hp2 : alookup parsed "pass" with
    | none =>
      have hcp2 : alookup (dictSet parsed "local_ip" (JVal.str localIP)) "pass" = none := by
        rw [alookup_dictSet_ne parsed "local_ip" "pass" (JVal.str localIP) (by decide)]
        exact hp2
      refine ⟨"pass", Or.inr (Or.inl rfl), hp2, ?_⟩
      simp [getCredentials, hr, hp, hip, hkeys, hsome, hcu, hcp2]
    | some pw =>
      have hcp2 : alookup (dictSet parsed "local_ip" (JVal.str localIP)) "pass" = some pw := by
        rw [alookup_dictSet_ne parsed "local_ip" "pass" (JVal.str localIP) (by decide)]
        exact hp2
      cases hc2 : alookup parsed "client_id" with
      | none =>
        have hcc2 : alookup (dictSet parsed "local_ip" (JVal.str localIP)) "client_id" = none := by
          rw [alookup_dictSet_ne parsed "local_ip" "client_id" (JVal.str localIP) (by decide)]
          exact hc2
        refine ⟨"client_id", Or.inr (Or.inr rfl), hc2, ?_⟩
        simp [getCredentials, hr, hp, hip, hkeys, hsome, hcu, hcp2, hcc2]
      | some cid =>
        rcases hnotall with h | h | h
        · rw [hu2] at h
          exact Option.noConfusion h
        · rw [hp2] at h
          exact Option.noConfusion h
        · rw [hc2] at h
          exact Option.noConfusion h

/-- Witness for C3 at the user-only credentials object. -/
theorem getCredentials_partial_keys_keyerror_witness :
    ∃ k, (k = "user" ∨ k = "pass" ∨ k = "client_id") ∧ alookup wCredsPartial k = none ∧
      getCredentials wEnvPartial "creds.json" "tun0" = .error (.exc "KeyError" k) :=
  getCredentials_partial_keys_keyerror wEnvPartial "creds.json" "tun0" "x" wCredsPartial
    "10.8.0.2" rfl rfl rfl (by decide) (Or.inr (Or.inl rfl))
